import Mathlib

/-!
Shallow embedding of the answer-acquisition and validation subsystem of
pve-installer: the raw-to-validated conversions of
`proxmox-auto-installer/src/answer.rs`, the CLI/fetch orchestration of
`proxmox-fetch-answer/src/main.rs` and the fingerprint-pinned TLS
verifier of `proxmox-installer-common/src/http.rs`, together with proofs
of the specified properties.

Rust types that live outside the embedded crates (`CidrAddress`,
`IpAddr`, the RAID-level and compress/checksum enums of
`proxmox-installer-common::options`, `f64` payloads) are never inspected
by the embedded code — only their presence is tested and their values
forwarded — so they are carried as type parameters; every theorem
therefore holds for each instantiation. `BTreeMap<String, String>` is
carried as an association list, faithful here because the conversions
only test presence and forward the map unchanged.
-/

set_option maxHeartbeats 1000000

/-- `NetworkConfigMode` from answer.rs: the `source` tag of a raw network
block, `#[serde(default)]` being `FromDhcp`. -/
inductive NetworkConfigMode
  | FromDhcp
  | FromAnswer
deriving DecidableEq, Repr

/-- The `#[default]` variant of `NetworkConfigMode` (`#[serde(default)]`
on the `source` field means an omitted tag becomes `FromDhcp`). -/
def networkConfigModeDefault : NetworkConfigMode := .FromDhcp

/-- `NetworkInAnswer` from answer.rs: the raw parsed shape of a network
block. `Cidr`, `Ip`, `Fil` stand for `CidrAddress`, `IpAddr` and
`BTreeMap<String, String>`, never inspected by the conversion. -/
structure NetworkInAnswer (Cidr Ip Fil : Type) where
  source : NetworkConfigMode
  cidr : Option Cidr
  dns : Option Ip
  gateway : Option Ip
  filter : Option Fil
deriving DecidableEq, Repr

/-- `NetworkManual` from answer.rs. -/
structure NetworkManual (Cidr Ip Fil : Type) where
  cidr : Cidr
  dns : Ip
  gateway : Ip
  filter : Fil
deriving DecidableEq, Repr

/-- `NetworkSettings` from answer.rs. -/
inductive NetworkSettings (Cidr Ip Fil : Type)
  | FromDhcp
  | Manual (m : NetworkManual Cidr Ip Fil)
deriving DecidableEq, Repr

/-- `Network` from answer.rs: the validated shape. -/
structure Network (Cidr Ip Fil : Type) where
  network_settings : NetworkSettings Cidr Ip Fil
deriving DecidableEq, Repr

/-- `impl TryFrom<NetworkInAnswer> for Network` (answer.rs lines
151-196). Early `return Err(...)` becomes nested matching; the
`is_none` checks followed by `unwrap()` become the `match` arms. -/
def tryFromNetworkInAnswer {Cidr Ip Fil : Type}
    (network : NetworkInAnswer Cidr Ip Fil) :
    Except String (Network Cidr Ip Fil) :=
  if network.source = NetworkConfigMode.FromAnswer then
    match network.cidr with
    | none => .error "Field 'cidr' must be set."
    | some c =>
      match network.dns with
      | none => .error "Field 'dns' must be set."
      | some d =>
        match network.gateway with
        | none => .error "Field 'gateway' must be set."
        | some g =>
          match network.filter with
          | none => .error "Field 'filter' must be set."
          | some f =>
            .ok { network_settings :=
                    NetworkSettings.Manual
                      { cidr := c, dns := d, gateway := g, filter := f } }
  else
    match network.cidr with
    | some _ => .error "Field 'cidr' not supported for 'from-dhcp' config."
    | none =>
      match network.dns with
      | some _ => .error "Field 'dns' not supported for 'from-dhcp' config."
      | none =>
        match network.gateway with
        | some _ =>
          .error "Field 'gateway' not supported for 'from-dhcp' config."
        | none =>
          match network.filter with
          | some _ =>
            .error "Field 'filter' not supported for 'from-dhcp' config."
          | none => .ok { network_settings := NetworkSettings.FromDhcp }

/-- `FilterMatch` from answer.rs. -/
inductive FilterMatch
  | Any
  | All
deriving DecidableEq, Repr

/-- `Filesystem` from answer.rs: the filesystem choice of a raw disk
block. -/
inductive Filesystem
  | Ext4
  | Xfs
  | Zfs
  | Btrfs
deriving DecidableEq, Repr

/-- `ZfsOptions` from answer.rs. `ZR`/`ZS`/`ZC` stand for
`ZfsRaidLevel`/`ZfsChecksumOption`/`ZfsCompressOption` and `F` for
`f64`, all defined outside the embedded crates and never inspected. -/
structure ZfsOptions (ZR ZS ZC F : Type) where
  raid : Option ZR
  ashift : Option Nat
  arc_max : Option Nat
  checksum : Option ZS
  compress : Option ZC
  copies : Option Nat
  hdsize : Option F
deriving DecidableEq, Repr

/-- `LvmOptions` from answer.rs. -/
structure LvmOptions (F : Type) where
  hdsize : Option F
  swapsize : Option F
  maxroot : Option F
  maxvz : Option F
  minfree : Option F
deriving DecidableEq, Repr

/-- `LvmOptions::default()`: every field is an `Option` defaulting to
`None`. -/
def defaultLvmOptions (F : Type) : LvmOptions F :=
  { hdsize := none, swapsize := none, maxroot := none, maxvz := none
    minfree := none }

/-- `BtrfsOptions` from answer.rs. `BR`/`BC` stand for
`BtrfsRaidLevel`/`BtrfsCompressOption`. -/
structure BtrfsOptions (BR BC F : Type) where
  hdsize : Option F
  raid : Option BR
  compress : Option BC
deriving DecidableEq, Repr

/-- `DiskSetup` from answer.rs: the raw parsed shape of a disk block.
`disk_list` is `#[serde(default)]`, i.e. `[]` when omitted; `filter` is
the `BTreeMap<String, String>` carried as an association list. -/
structure DiskSetup (ZR ZS ZC BR BC F : Type) where
  filesystem : Filesystem
  disk_list : List String
  filter : Option (List (String × String))
  filter_match : Option FilterMatch
  zfs : Option (ZfsOptions ZR ZS ZC F)
  lvm : Option (LvmOptions F)
  btrfs : Option (BtrfsOptions BR BC F)
deriving DecidableEq, Repr

/-- Modelled from the spec: `FsType` of
`proxmox-installer-common::options` (not under src/) is "the resolved
filesystem type (embedding the RAID level for zfs/btrfs)". -/
inductive FsType (ZR BR : Type)
  | Ext4
  | Xfs
  | Zfs (r : ZR)
  | Btrfs (r : BR)
deriving DecidableEq, Repr

/-- `FsOptions` from answer.rs. -/
inductive FsOptions (ZR ZS ZC BR BC F : Type)
  | LVM (o : LvmOptions F)
  | ZFS (o : ZfsOptions ZR ZS ZC F)
  | BTRFS (o : BtrfsOptions BR BC F)
deriving DecidableEq, Repr

/-- `DiskSelection` from answer.rs. -/
inductive DiskSelection
  | Selection (l : List String)
  | Filter (m : List (String × String))
deriving DecidableEq, Repr

/-- `Disks` from answer.rs: the validated shape of a disk block. -/
structure Disks (ZR ZS ZC BR BC F : Type) where
  fs_type : FsType ZR BR
  disk_selection : DiskSelection
  filter_match : Option FilterMatch
  fs_options : FsOptions ZR ZS ZC BR BC F
deriving DecidableEq, Repr

/-- The `lvm_checks` closure of `TryFrom<DiskSetup> for Disks`
(answer.rs lines 251-259). -/
def lvm_checks {ZR ZS ZC BR BC F : Type}
    (source : DiskSetup ZR ZS ZC BR BC F) : Except String Unit :=
  if source.zfs.isSome || source.btrfs.isSome then
    .error "make sure only 'lvm' options are set"
  else if 1 < source.disk_list.length then
    .error "make sure to define only one disk for ext4 and xfs"
  else
    .ok ()

/-- `impl TryFrom<DiskSetup> for Disks` (answer.rs lines 234-303).
`source.filter.clone().unwrap()` in the `disk_selection` binding is
reached only with `filter` present (the first two checks rule out the
`None` case), so it is rendered as `getD []`. -/
def tryFromDiskSetup {ZR ZS ZC BR BC F : Type}
    (source : DiskSetup ZR ZS ZC BR BC F) :
    Except String (Disks ZR ZS ZC BR BC F) :=
  if source.disk_list.isEmpty && source.filter.isNone then
    .error "Need either 'disk_list' or 'filter' set"
  else if !source.disk_list.isEmpty && source.filter.isSome then
    .error "Cannot use both, 'disk_list' and 'filter'"
  else
    let disk_selection :=
      if !source.disk_list.isEmpty then
        DiskSelection.Selection source.disk_list
      else
        DiskSelection.Filter (source.filter.getD [])
    let build := fun (fs : FsType ZR BR)
        (fs_options : FsOptions ZR ZS ZC BR BC F) =>
      Except.ok
        { fs_type := fs, disk_selection := disk_selection
          filter_match := source.filter_match, fs_options := fs_options }
    match source.filesystem with
    | Filesystem.Xfs =>
      match lvm_checks source with
      | .error e => .error e
      | .ok () =>
        build FsType.Xfs
          (FsOptions.LVM (source.lvm.getD (defaultLvmOptions F)))
    | Filesystem.Ext4 =>
      match lvm_checks source with
      | .error e => .error e
      | .ok () =>
        build FsType.Ext4
          (FsOptions.LVM (source.lvm.getD (defaultLvmOptions F)))
    | Filesystem.Zfs =>
      if source.lvm.isSome || source.btrfs.isSome then
        .error "make sure only 'zfs' options are set"
      else
        match source.zfs with
        | none => .error "ZFS raid level 'zfs.raid' must be set"
        | some opts =>
          match opts.raid with
          | none => .error "ZFS raid level 'zfs.raid' must be set"
          | some r => build (FsType.Zfs r) (FsOptions.ZFS opts)
    | Filesystem.Btrfs =>
      if source.zfs.isSome || source.lvm.isSome then
        .error "make sure only 'btrfs' options are set"
      else
        match source.btrfs with
        | none => .error "BTRFS raid level 'btrfs.raid' must be set"
        | some opts =>
          match opts.raid with
          | none => .error "BTRFS raid level 'btrfs.raid' must be set"
          | some r => build (FsType.Btrfs r) (FsOptions.BTRFS opts)

/-- `FirstBootHookSourceMode` from answer.rs. -/
inductive FirstBootHookSourceMode
  | FromUrl
  | FromIso
deriving DecidableEq, Repr

/-- `FirstBootHookServiceOrdering` from answer.rs, the `#[default]`
variant being `FullyUp`. -/
inductive FirstBootHookServiceOrdering
  | BeforeNetwork
  | NetworkOnline
  | FullyUp
deriving DecidableEq, Repr

/-- The `#[default]` variant of `FirstBootHookServiceOrdering`
(`#[serde(default)]` on the `ordering` field means an omitted field
becomes `FullyUp`). -/
def firstBootHookServiceOrderingDefault : FirstBootHookServiceOrdering :=
  .FullyUp

/-- `FirstBootHookServiceOrdering::as_systemd_target_name` (answer.rs
lines 96-105). -/
def as_systemd_target_name (o : FirstBootHookServiceOrdering) : String :=
  match o with
  | .BeforeNetwork => "network-pre"
  | .NetworkOnline => "network-online"
  | .FullyUp => "multi-user"

/-- `FirstBootHookInfo` from answer.rs (lines 109-122). -/
structure FirstBootHookInfo where
  source : FirstBootHookSourceMode
  ordering : FirstBootHookServiceOrdering
  url : Option String
  cert_fingerprint : Option String
deriving DecidableEq, Repr

/-- Modelled from the spec: the validation consuming
`FirstBootHookInfo` is not part of the embedded sources (only the
struct declaration is); per the spec, "validation must reject both
missing-required and present-but-forbidden fields with a specific
message naming the field" and "only when sourced from a URL" may "the
URL and optional fingerprint" be present. -/
def validateFirstBootHookInfo (info : FirstBootHookInfo) :
    Except String Unit :=
  match info.source with
  | .FromUrl =>
    if info.url.isNone then
      .error "Field 'url' must be set for the 'from-url' source mode."
    else
      .ok ()
  | .FromIso =>
    if info.url.isSome then
      .error "Field 'url' not supported for the 'from-iso' source mode."
    else if info.cert_fingerprint.isSome then
      .error
        "Field 'cert_fingerprint' not supported for the 'from-iso' source mode."
    else
      .ok ()

/-- Modelled from the spec: `FetchAnswerFrom` of
`proxmox-auto-installer::utils` (not under src/) — the fetch
configuration "mode (`iso`|`partition`|`http`)". -/
inductive FetchAnswerFrom
  | Iso
  | Partition
  | Http
deriving DecidableEq, Repr

/-- Modelled from the spec: `HttpOptions` of
`proxmox-auto-installer::utils` (not under src/) — "only for `http`, a
URL and optional fingerprint". -/
structure HttpOptions where
  url : Option String
  cert_fingerprint : Option String
deriving DecidableEq, Repr

/-- Modelled from the spec: `AutoInstSettings` of
`proxmox-auto-installer::utils` (not under src/) — the fetch
configuration, "a mode (`iso`|`partition`|`http`)" plus the HTTP
options. -/
structure AutoInstSettings where
  mode : FetchAnswerFrom
  http : HttpOptions
deriving DecidableEq, Repr

/-- `fetch_answer` from proxmox-fetch-answer main.rs (lines 26-46).
The three fetchers perform I/O, so their outcomes are passed in:
`isoRead` stands for `fs::read_to_string("/cdrom/answer.toml")`,
`partitionGet` for `FetchFromPartition::get_answer()` and `httpGet` for
`FetchFromHTTP::get_answer(&install_settings.http)`. The second
component of the result records which fetchers were invoked, in order;
a failed fetch falls through to the final
`bail!("Could not find any answer file!")`. -/
def fetch_answer (install_settings : AutoInstSettings)
    (isoRead : Except String String) (partitionGet : Except String String)
    (httpGet : HttpOptions → Except String String) :
    Except String String × List FetchAnswerFrom :=
  match install_settings.mode with
  | .Iso =>
    match isoRead with
    | .ok answer => (.ok answer, [.Iso])
    | .error _ => (.error "Could not find any answer file!", [.Iso])
  | .Partition =>
    match partitionGet with
    | .ok answer => (.ok answer, [.Partition])
    | .error _ => (.error "Could not find any answer file!", [.Partition])
  | .Http =>
    match httpGet install_settings.http with
    | .ok answer => (.ok answer, [.Http])
    | .error _ => (.error "Could not find any answer file!", [.Http])

/-- The outcome of the single fetcher matching the configured mode,
with the same conventions as `fetch_answer`. -/
def selectedFetch (install_settings : AutoInstSettings)
    (isoRead : Except String String) (partitionGet : Except String String)
    (httpGet : HttpOptions → Except String String) :
    Except String String :=
  match install_settings.mode with
  | .Iso => isoRead
  | .Partition => partitionGet
  | .Http => httpGet install_settings.http

/-- `str::to_lowercase` as used on the mode keyword: ASCII lowercasing
(the keywords compared against are ASCII, so the Unicode special cases
cannot make a difference to the comparison results). -/
def rustToLowercase (s : String) : String :=
  String.mk (s.data.map Char.toLower)

/-- `settings_from_cli_args` from proxmox-fetch-answer main.rs (lines
48-71). `args[1]` in the source panics when fewer than two arguments
are present; the caller only invokes the function with
`args.len() > 1`, and that case is rendered as an error. Note the
source's `if args.len() > 4 { }` branch is EMPTY: five or more
arguments skip the non-HTTP extra-argument check and fall through to
success. -/
def settings_from_cli_args (args : List String) :
    Except String AutoInstSettings :=
  match args with
  | arg0 :: arg1 :: _ =>
    let lower := rustToLowercase arg1
    let modeRes : Except String FetchAnswerFrom :=
      if lower = "iso" then .ok .Iso
      else if lower = "http" then .ok .Http
      else if lower = "partition" then .ok .Partition
      else if lower = "-h" ∨ lower = "--help" then
        .error ("usage: " ++ arg0 ++
          " <http|iso|partition> [<http-url>] [<tls-cert-fingerprint>]")
      else
        .error
          "failed to parse fetch-from argument, not one of 'http', 'iso', or 'partition'"
    match modeRes with
    | .error e => .error e
    | .ok mode =>
      if 4 < args.length then
        .ok { mode := mode
              http := { url := args.get? 2
                        cert_fingerprint := args.get? 3 } }
      else if 2 < args.length ∧ mode ≠ .Http then
        .error
          "only 'http' fetch-from mode supports additional url and cert-fingerprint mode"
      else
        .ok { mode := mode
              http := { url := args.get? 2
                        cert_fingerprint := args.get? 3 } }
  | _ => .error "index out of bounds: args[1]"

/-- Addition modulo 2^32, the word arithmetic of SHA-256. -/
def add32 (a b : Nat) : Nat := (a + b) % 4294967296

/-- Rotate a 32-bit word right by `n` bit positions. -/
def rotr32 (n x : Nat) : Nat :=
  ((x >>> n) ||| (x <<< (32 - n))) % 4294967296

/-- SHA-256 `Ch` function; `x ^^^ 4294967295` is the 32-bit
complement. -/
def shaCh (x y z : Nat) : Nat := (x &&& y) ^^^ ((x ^^^ 4294967295) &&& z)

/-- SHA-256 `Maj` function. -/
def shaMaj (x y z : Nat) : Nat := (x &&& y) ^^^ (x &&& z) ^^^ (y &&& z)

/-- SHA-256 big sigma 0. -/
def bsig0 (x : Nat) : Nat := rotr32 2 x ^^^ rotr32 13 x ^^^ rotr32 22 x

/-- SHA-256 big sigma 1. -/
def bsig1 (x : Nat) : Nat := rotr32 6 x ^^^ rotr32 11 x ^^^ rotr32 25 x

/-- SHA-256 small sigma 0. -/
def ssig0 (x : Nat) : Nat := rotr32 7 x ^^^ rotr32 18 x ^^^ (x >>> 3)

/-- SHA-256 small sigma 1. -/
def ssig1 (x : Nat) : Nat := rotr32 17 x ^^^ rotr32 19 x ^^^ (x >>> 10)

/-- The 64 SHA-256 round constants. -/
def shaK : List Nat :=
  [1116352408, 1899447441, 3049323471, 3921009573, 961987163,
   1508970993, 2453635748, 2870763221, 3624381080, 310598401,
   607225278, 1426881987, 1925078388, 2162078206, 2614888103,
   3248222580, 3835390401, 4022224774, 264347078, 604807628,
   770255983, 1249150122, 1555081692, 1996064986, 2554220882,
   2821834349, 2952996808, 3210313671, 3336571891, 3584528711,
   113926993, 338241895, 666307205, 773529912, 1294757372,
   1396182291, 1695183700, 1986661051, 2177026350, 2456956037,
   2730485921, 2820302411, 3259730800, 3345764771, 3516065817,
   3600352804, 4094571909, 275423344, 430227734, 506948616,
   659060556, 883997877, 958139571, 1322822218, 1537002063,
   1747873779, 1955562222, 2024104815, 2227730452, 2361852424,
   2428436474, 2756734187, 3204031479, 3329325298]

/-- The SHA-256 initial hash state. -/
def shaH0 : List Nat :=
  [1779033703, 3144134277, 1013904242, 2773480762,
   1359893119, 2600822924, 528734635, 1541459225]

/-- The `k` low-order bytes of `n`, big-endian. -/
def beBytes : Nat → Nat → List Nat
  | 0, _ => []
  | k + 1, n => beBytes k (n / 256) ++ [n % 256]

/-- SHA-256 padding: append `0x80`, zeros up to 56 mod 64 bytes, then
the bit length as 8 big-endian bytes. -/
def sha256Pad (msg : List Nat) : List Nat :=
  let l := msg.length
  let k := (119 - l % 64) % 64
  msg ++ [128] ++ List.replicate k 0 ++ beBytes 8 (l * 8)

/-- Big-endian bytes to 32-bit words, four at a time. -/
def wordsOfBytes : List Nat → List Nat
  | a :: b :: c :: d :: rest =>
    (((a * 256 + b) * 256 + c) * 256 + d) :: wordsOfBytes rest
  | _ => []

/-- Message-schedule extension; `acc` holds the schedule so far in
reverse order, so `W[t-2]` is `acc[1]`, `W[t-7]` is `acc[6]`, `W[t-15]`
is `acc[14]` and `W[t-16]` is `acc[15]`. -/
def extendSchedule : Nat → List Nat → List Nat
  | 0, acc => acc
  | n + 1, acc =>
    extendSchedule n
      (add32 (add32 (ssig1 (acc.getD 1 0)) (acc.getD 6 0))
        (add32 (ssig0 (acc.getD 14 0)) (acc.getD 15 0)) :: acc)

/-- One SHA-256 compression round on the 8-word state, with round
constant and schedule word `kw`. -/
def shaRound (st : List Nat) (kw : Nat × Nat) : List Nat :=
  match st with
  | [a, b, c, d, e, f, g, h] =>
    let t1 := add32 (add32 (add32 h (bsig1 e)) (add32 (shaCh e f g) kw.1))
      kw.2
    let t2 := add32 (bsig0 a) (shaMaj a b c)
    [add32 t1 t2, a, b, c, add32 d t1, e, f, g]
  | other => other

/-- Compress one 64-byte block into the running 8-word state. -/
def compressBlock (hs : List Nat) (block : List Nat) : List Nat :=
  let ws := (extendSchedule 48 (wordsOfBytes block).reverse).reverse
  let fin := (shaK.zip ws).foldl shaRound hs
  (hs.zip fin).map (fun p => add32 p.1 p.2)

/-- Split a byte list into 64-byte blocks. -/
def splitBlocks : List Nat → List (List Nat)
  | [] => []
  | x :: xs => ((x :: xs).take 64) :: splitBlocks (xs.drop 63)
termination_by l => l.length
decreasing_by simp [List.length_drop]; omega

/-- SHA-256 of a byte list, as the 32-byte digest: the `sha2` crate
computation performed by `verify_server_cert` (http.rs lines 109-111). -/
def sha256 (msg : List Nat) : List Nat :=
  let hs := (splitBlocks (sha256Pad msg)).foldl compressBlock shaH0
  (hs.map (beBytes 4)).flatten

/-- The value of one hex digit, on character codes: `0`-`9`, then
lowercase `a`-`f`, then uppercase `A`-`F` (`hex::decode` accepts
both cases). -/
def hexDigitNat? (n : Nat) : Option Nat :=
  if 48 ≤ n ∧ n ≤ 57 then some (n - 48)
  else if 97 ≤ n ∧ n ≤ 102 then some (n - 87)
  else if 65 ≤ n ∧ n ≤ 70 then some (n - 55)
  else none

/-- `hex::decode` on character codes: fails on odd length or a
non-hex-digit character, else pairs digits into bytes. -/
def hexDecodePairs : List Nat → Option (List Nat)
  | [] => some []
  | [_] => none
  | c1 :: c2 :: rest =>
    match hexDigitNat? c1, hexDigitNat? c2, hexDecodePairs rest with
    | some hi, some lo, some bs => some ((16 * hi + lo) :: bs)
    | _, _, _ => none

/-- The character codes of a string after
`cert_fingerprint.replace(':', "")` (http.rs line 91), i.e. with every
colon removed. -/
def sanitizeCodes (s : String) : List Nat :=
  (s.toList.filter (fun c => c ≠ ':')).map Char.toNat

/-- `VerifyCertFingerprint` from http.rs: the decoded pin bytes. -/
structure VerifyCertFingerprint where
  cert_fingerprint : List Nat
deriving DecidableEq, Repr

/-- `VerifyCertFingerprint::new` (http.rs lines 89-96): strip colons,
hex-decode; the `hex::decode` error is collapsed to `none`. -/
def VerifyCertFingerprint.new (s : String) :
    Option VerifyCertFingerprint :=
  (hexDecodePairs (sanitizeCodes s)).map
    (fun bs => { cert_fingerprint := bs })

/-- `verify_server_cert` (http.rs lines 100-118): SHA-256 the raw leaf
certificate bytes and compare byte-for-byte against the pin. -/
def verify_server_cert (v : VerifyCertFingerprint)
    (end_entity : List Nat) : Except String Unit :=
  if sha256 end_entity = v.cert_fingerprint then
    .ok ()
  else
    .error "Fingerprint did not match!"

/-- Lowercasing of hex letters on character codes: `A`-`F` (codes
65-70) map to `a`-`f`; everything else is fixed. Two fingerprint
strings "denote the same bytes" when their colon-stripped codes agree
under this map. -/
def lowerHexNat (n : Nat) : Nat := if 65 ≤ n ∧ n ≤ 70 then n + 32 else n

/-- The disk-selection stage checks of `TryFrom<DiskSetup>` pass:
neither the "neither" nor the "both" error fires. -/
def selectionOk {ZR ZS ZC BR BC F : Type}
    (s : DiskSetup ZR ZS ZC BR BC F) : Bool :=
  !(s.disk_list.isEmpty && s.filter.isNone) &&
    !(!s.disk_list.isEmpty && s.filter.isSome)

/-- The per-filesystem checks of `TryFrom<DiskSetup>` pass: no foreign
option block, the single-disk constraint for ext4/xfs, and a RAID
level for zfs/btrfs. -/
def fsStageOk {ZR ZS ZC BR BC F : Type}
    (s : DiskSetup ZR ZS ZC BR BC F) : Bool :=
  match s.filesystem with
  | .Xfs => s.zfs.isNone && s.btrfs.isNone && s.disk_list.length ≤ 1
  | .Ext4 => s.zfs.isNone && s.btrfs.isNone && s.disk_list.length ≤ 1
  | .Zfs =>
    s.lvm.isNone && s.btrfs.isNone &&
      (s.zfs.bind ZfsOptions.raid).isSome
  | .Btrfs =>
    s.zfs.isNone && s.lvm.isNone &&
      (s.btrfs.bind BtrfsOptions.raid).isSome

/-- C9: the first-boot ordering class maps to exactly the three fixed
systemd target names — `BeforeNetwork` to "network-pre",
`NetworkOnline` to "network-online", `FullyUp` to "multi-user" — via
`as_systemd_target_name`, and the serde default for an omitted
`ordering` field is `FullyUp`. -/
theorem firstBoot_ordering_target_mapping :
    as_systemd_target_name FirstBootHookServiceOrdering.BeforeNetwork =
        "network-pre"
      ∧ as_systemd_target_name FirstBootHookServiceOrdering.NetworkOnline =
        "network-online"
      ∧ as_systemd_target_name FirstBootHookServiceOrdering.FullyUp =
        "multi-user"
      ∧ firstBootHookServiceOrderingDefault =
        FirstBootHookServiceOrdering.FullyUp :=
  ⟨rfl, rfl, rfl, rfl⟩

/-- C8: first-boot hook validation rejects a `from-url` block with no
`url` (missing-required) and a `from-iso` block carrying a `url` or
`cert_fingerprint` (present-but-forbidden), each with a message naming
the field; only a URL-sourced block may carry them. -/
theorem firstBoot_validation_spec (info : FirstBootHookInfo) :
    (info.source = FirstBootHookSourceMode.FromUrl → info.url = none →
        validateFirstBootHookInfo info =
          .error "Field 'url' must be set for the 'from-url' source mode.")
      ∧ (info.source = FirstBootHookSourceMode.FromUrl → info.url ≠ none →
        validateFirstBootHookInfo info = .ok ())
      ∧ (info.source = FirstBootHookSourceMode.FromIso → info.url ≠ none →
        validateFirstBootHookInfo info =
          .error "Field 'url' not supported for the 'from-iso' source mode.")
      ∧ (info.source = FirstBootHookSourceMode.FromIso → info.url = none →
        info.cert_fingerprint ≠ none →
        validateFirstBootHookInfo info =
          .error
            "Field 'cert_fingerprint' not supported for the 'from-iso' source mode.")
      ∧ (info.source = FirstBootHookSourceMode.FromIso → info.url = none →
        info.cert_fingerprint = none →
        validateFirstBootHookInfo info = .ok ()) := by
  rcases info with ⟨src, ord, url, fp⟩
  cases src <;> cases url <;> cases fp <;>
    simp [validateFirstBootHookInfo]

/-- Witness for `firstBoot_validation_spec` at a concrete block: a
`from-url` block with no URL is rejected with the message naming
`url`. -/
theorem firstBoot_validation_spec_witness :
    validateFirstBootHookInfo
        { source := FirstBootHookSourceMode.FromUrl
          ordering := FirstBootHookServiceOrdering.FullyUp
          url := none, cert_fingerprint := none } =
      .error "Field 'url' must be set for the 'from-url' source mode." :=
  (firstBoot_validation_spec _).1 rfl rfl

/-- C1: converting a raw network block succeeds with the `Manual`
variant carrying exactly the given values when the tag is
`from-answer` and all four fields are present; fails naming the first
missing field (order cidr, dns, gateway, filter) when the tag is
`from-answer`; fails naming the first present field (same order) when
the tag is `from-dhcp`; succeeds with `FromDhcp` when the tag is
`from-dhcp` and all four are absent; and an omitted tag defaults to
`from-dhcp`. -/
theorem network_conversion_spec {Cidr Ip Fil : Type}
    (n : NetworkInAnswer Cidr Ip Fil) :
    (n.source = NetworkConfigMode.FromAnswer →
      ((∀ c d g f, n.cidr = some c → n.dns = some d → n.gateway = some g →
          n.filter = some f →
          tryFromNetworkInAnswer n =
            .ok { network_settings := NetworkSettings.Manual
                    { cidr := c, dns := d, gateway := g, filter := f } })
        ∧ (n.cidr = none →
          tryFromNetworkInAnswer n = .error "Field 'cidr' must be set.")
        ∧ (n.cidr ≠ none → n.dns = none →
          tryFromNetworkInAnswer n = .error "Field 'dns' must be set.")
        ∧ (n.cidr ≠ none → n.dns ≠ none → n.gateway = none →
          tryFromNetworkInAnswer n = .error "Field 'gateway' must be set.")
        ∧ (n.cidr ≠ none → n.dns ≠ none → n.gateway ≠ none →
          n.filter = none →
          tryFromNetworkInAnswer n = .error "Field 'filter' must be set.")))
      ∧ (n.source = NetworkConfigMode.FromDhcp →
        ((n.cidr = none → n.dns = none → n.gateway = none →
            n.filter = none →
            tryFromNetworkInAnswer n =
              .ok { network_settings := NetworkSettings.FromDhcp })
          ∧ (n.cidr ≠ none →
            tryFromNetworkInAnswer n =
              .error "Field 'cidr' not supported for 'from-dhcp' config.")
          ∧ (n.cidr = none → n.dns ≠ none →
            tryFromNetworkInAnswer n =
              .error "Field 'dns' not supported for 'from-dhcp' config.")
          ∧ (n.cidr = none → n.dns = none → n.gateway ≠ none →
            tryFromNetworkInAnswer n =
              .error "Field 'gateway' not supported for 'from-dhcp' config.")
          ∧ (n.cidr = none → n.dns = none → n.gateway = none →
            n.filter ≠ none →
            tryFromNetworkInAnswer n =
              .error "Field 'filter' not supported for 'from-dhcp' config.")))
      ∧ networkConfigModeDefault = NetworkConfigMode.FromDhcp := by
  rcases n with ⟨src, oc, od, og, ofl⟩
  cases src <;> cases oc <;> cases od <;> cases og <;> cases ofl <;>
    simp [tryFromNetworkInAnswer, networkConfigModeDefault]
  intro c d g f hc hd hg hf
  exact ⟨hc, hd, hg, hf⟩

/-- Witness for `network_conversion_spec` at a concrete block: a
`from-answer` block with all four fields present yields `Manual` with
exactly those values. -/
theorem network_conversion_spec_witness :
    tryFromNetworkInAnswer
        { source := NetworkConfigMode.FromAnswer, cidr := some 1
          dns := some 2, gateway := some 3
          filter := some (4 : Nat) } =
      .ok { network_settings := NetworkSettings.Manual
              { cidr := (1 : Nat), dns := (2 : Nat), gateway := 3
                filter := 4 } } :=
  ((network_conversion_spec _).1 rfl).1 1 2 3 4 rfl rfl rfl rfl

/-- C2 (amended): the disk conversion fails when the device list is
empty and the filter absent, fails when the device list is non-empty
and a filter is present (presence, not non-emptiness, of the filter map
is what is checked), and any success yields `Selection` of the device
list when that list is non-empty and `Filter` of the present map
otherwise; when exactly one of the two is supplied and the
per-filesystem checks also pass, the conversion does succeed with the
corresponding variant. -/
theorem disks_selection_spec {ZR ZS ZC BR BC F : Type}
    (s : DiskSetup ZR ZS ZC BR BC F) :
    (s.disk_list = [] → s.filter = none →
      tryFromDiskSetup s = .error "Need either 'disk_list' or 'filter' set")
      ∧ (s.disk_list ≠ [] → s.filter ≠ none →
        tryFromDiskSetup s = .error "Cannot use both, 'disk_list' and 'filter'")
      ∧ (∀ d, tryFromDiskSetup s = .ok d →
        (s.disk_list ≠ [] → d.disk_selection = .Selection s.disk_list)
          ∧ (∀ f, s.filter = some f → s.disk_list = [] →
            d.disk_selection = .Filter f))
      ∧ (fsStageOk s → s.disk_list ≠ [] → s.filter = none →
        ∃ d, tryFromDiskSetup s = .ok d ∧
          d.disk_selection = .Selection s.disk_list)
      ∧ (fsStageOk s → s.disk_list = [] → ∀ f, s.filter = some f →
        ∃ d, tryFromDiskSetup s = .ok d ∧ d.disk_selection = .Filter f) := by
  rcases s with ⟨fs, dl, fil, fm, zfs, lvm, btr⟩
  rcases zfs with _ | ⟨zraid, za, zb, zc, zd, ze, zh⟩ <;>
    (try cases zraid) <;>
    rcases btr with _ | ⟨bh, braid, bc⟩ <;>
    (try cases braid) <;>
    cases fs <;> cases dl <;> cases fil <;> cases lvm <;>
    simp_all [tryFromDiskSetup, lvm_checks, fsStageOk, defaultLvmOptions] <;>
    (intro d; split <;> (try simp_all) <;> (rintro rfl; rfl))

/-- C3: for a zfs disk block passing the selection-stage checks, a
present `lvm` or `btrfs` block fails the conversion; with neither
present, an absent `zfs` block or an absent RAID level fails with the
specific RAID-required error; and a `zfs` block with a RAID level set
succeeds, embedding the level in `fs_type` and the options in
`fs_options`. -/
theorem disks_zfs_spec {ZR ZS ZC BR BC F : Type}
    (s : DiskSetup ZR ZS ZC BR BC F)
    (hfs : s.filesystem = Filesystem.Zfs) (hsel : selectionOk s) :
    ((s.lvm ≠ none ∨ s.btrfs ≠ none) →
      tryFromDiskSetup s = .error "make sure only 'zfs' options are set")
      ∧ (s.lvm = none → s.btrfs = none → s.zfs = none →
        tryFromDiskSetup s = .error "ZFS raid level 'zfs.raid' must be set")
      ∧ (s.lvm = none → s.btrfs = none → ∀ o, s.zfs = some o →
        o.raid = none →
        tryFromDiskSetup s = .error "ZFS raid level 'zfs.raid' must be set")
      ∧ (s.lvm = none → s.btrfs = none → ∀ o r, s.zfs = some o →
        o.raid = some r →
        tryFromDiskSetup s =
          .ok { fs_type := FsType.Zfs r
                disk_selection :=
                  if !s.disk_list.isEmpty then
                    DiskSelection.Selection s.disk_list
                  else
                    DiskSelection.Filter (s.filter.getD [])
                filter_match := s.filter_match
                fs_options := FsOptions.ZFS o }) := by
  rcases s with ⟨fs, dl, fil, fm, zfs, lvm, btr⟩
  rcases zfs with _ | ⟨zraid, za, zb, zc, zd, ze, zh⟩ <;>
    (try cases zraid) <;>
    cases fs <;> cases dl <;> cases fil <;> cases lvm <;> cases btr <;>
    simp_all [tryFromDiskSetup, selectionOk] <;>
    (rintro o r rfl h2; simp_all)

/-- C4: for an ext4 or xfs disk block passing the selection-stage
checks, a present `zfs` or `btrfs` block fails the conversion; two or
more explicitly listed devices fail with the single-disk error; and
otherwise the conversion succeeds with the LVM options variant, given
the `lvm` block or its empty default. -/
theorem disks_lvm_spec {ZR ZS ZC BR BC F : Type}
    (s : DiskSetup ZR ZS ZC BR BC F)
    (hfs : s.filesystem = Filesystem.Ext4 ∨ s.filesystem = Filesystem.Xfs)
    (hsel : selectionOk s) :
    ((s.zfs ≠ none ∨ s.btrfs ≠ none) →
      tryFromDiskSetup s = .error "make sure only 'lvm' options are set")
      ∧ (s.zfs = none → s.btrfs = none → 2 ≤ s.disk_list.length →
        tryFromDiskSetup s =
          .error "make sure to define only one disk for ext4 and xfs")
      ∧ (s.zfs = none → s.btrfs = none → s.disk_list.length ≤ 1 →
        tryFromDiskSetup s =
          .ok { fs_type :=
                  if s.filesystem = Filesystem.Ext4 then FsType.Ext4
                  else FsType.Xfs
                disk_selection :=
                  if !s.disk_list.isEmpty then
                    DiskSelection.Selection s.disk_list
                  else
                    DiskSelection.Filter (s.filter.getD [])
                filter_match := s.filter_match
                fs_options :=
                  FsOptions.LVM (s.lvm.getD (defaultLvmOptions F)) }) := by
  rcases s with ⟨fs, dl, fil, fm, zfs, lvm, btr⟩
  cases fs <;>
    rcases dl with _ | ⟨d1, _ | ⟨d2, dt⟩⟩ <;>
    cases fil <;> cases zfs <;> cases lvm <;> cases btr <;>
    simp_all [tryFromDiskSetup, lvm_checks, selectionOk,
      defaultLvmOptions]

/-- C10: a disk block with an empty device list and a present but
empty filter map never trips the "neither" selection error — the
emptiness of a present filter map is not checked — and when the
per-filesystem checks pass the conversion succeeds with the `Filter`
variant holding the empty map. -/
theorem disks_empty_filter_spec {ZR ZS ZC BR BC F : Type}
    (s : DiskSetup ZR ZS ZC BR BC F)
    (hdl : s.disk_list = []) (hfil : s.filter = some []) :
    tryFromDiskSetup s ≠ .error "Need either 'disk_list' or 'filter' set"
      ∧ (fsStageOk s → ∃ d, tryFromDiskSetup s = .ok d ∧
        d.disk_selection = DiskSelection.Filter []) := by
  rcases s with ⟨fs, dl, fil, fm, zfs, lvm, btr⟩
  rcases zfs with _ | ⟨zraid, za, zb, zc, zd, ze, zh⟩ <;>
    (try cases zraid) <;>
    rcases btr with _ | ⟨bh, braid, bc⟩ <;>
    (try cases braid) <;>
    cases fs <;> cases lvm <;>
    simp_all [tryFromDiskSetup, lvm_checks, fsStageOk, defaultLvmOptions]

/-- The C2 claim as frozen is false at this input: with filesystem
`ext4` and a non-empty device list but no filter — exactly one of the
two supplied — the conversion still fails, because listing two devices
trips the single-disk check; succeeding is not implied by the
selection-stage checks alone. -/
theorem disks_selection_claim_counterexample :
    @tryFromDiskSetup Unit Unit Unit Unit Unit Unit
        { filesystem := Filesystem.Ext4, disk_list := ["sda", "sdb"]
          filter := none, filter_match := none, zfs := none, lvm := none
          btrfs := none } =
      .error "make sure to define only one disk for ext4 and xfs" := rfl

/-- Witness for `disks_selection_spec` at a concrete block: a one-disk
ext4 setup with no filter passes both selection checks and yields the
`Selection` variant. -/
theorem disks_selection_spec_witness :
    ∃ d, @tryFromDiskSetup Unit Unit Unit Unit Unit Unit
        { filesystem := Filesystem.Ext4, disk_list := ["sda"]
          filter := none, filter_match := none, zfs := none, lvm := none
          btrfs := none } =
      .ok d ∧ d.disk_selection = DiskSelection.Selection ["sda"] :=
  (disks_selection_spec _).2.2.2.1 rfl (by decide) rfl

/-- Witness for `disks_zfs_spec` at a concrete block: a zfs setup with
a RAID level set succeeds, embedding the level in `fs_type` and the
block in `fs_options`. -/
theorem disks_zfs_spec_witness :
    @tryFromDiskSetup Nat Unit Unit Unit Unit Unit
        { filesystem := Filesystem.Zfs, disk_list := ["sda"]
          filter := none, filter_match := none
          zfs := some { raid := some 7, ashift := none, arc_max := none
                        checksum := none, compress := none, copies := none
                        hdsize := none }
          lvm := none, btrfs := none } =
      .ok { fs_type := FsType.Zfs 7
            disk_selection := DiskSelection.Selection ["sda"]
            filter_match := none
            fs_options := FsOptions.ZFS
              { raid := some 7, ashift := none, arc_max := none
                checksum := none, compress := none, copies := none
                hdsize := none } } :=
  (disks_zfs_spec _ rfl (by rfl)).2.2.2 rfl rfl _ 7 rfl rfl

/-- Witness for `disks_lvm_spec` at a concrete block: a one-disk ext4
setup succeeds with the default LVM options when the `lvm` block is
absent. -/
theorem disks_lvm_spec_witness :
    @tryFromDiskSetup Unit Unit Unit Unit Unit Unit
        { filesystem := Filesystem.Ext4, disk_list := ["sda"]
          filter := none, filter_match := none, zfs := none, lvm := none
          btrfs := none } =
      .ok { fs_type := FsType.Ext4
            disk_selection := DiskSelection.Selection ["sda"]
            filter_match := none
            fs_options := FsOptions.LVM (defaultLvmOptions Unit) } :=
  (disks_lvm_spec _ (Or.inl rfl) (by rfl)).2.2 rfl rfl (by decide)

/-- Witness for `disks_empty_filter_spec` at a concrete block: an ext4
setup with an empty device list and a present-but-empty filter map
converts successfully to the `Filter` variant holding the empty map. -/
theorem disks_empty_filter_spec_witness :
    ∃ d, @tryFromDiskSetup Unit Unit Unit Unit Unit Unit
        { filesystem := Filesystem.Ext4, disk_list := []
          filter := some [], filter_match := none, zfs := none
          lvm := none, btrfs := none } =
      .ok d ∧ d.disk_selection = DiskSelection.Filter [] :=
  (disks_empty_filter_spec _ rfl rfl).2 rfl

/-- C5: the mode keyword of the CLI override is matched
case-insensitively; for HTTP mode the second and third positional
arguments become the URL and fingerprint; positional arguments with a
non-HTTP mode are a configuration error with a total of three or four
arguments — but with five or more, the source's empty
`if args.len() > 4 \x7b \x7d` branch skips the check and the call
succeeds, against the documented contract (the code bug of this
claim). -/
theorem settings_cli_spec (a0 u f : String) :
    settings_from_cli_args [a0, "http", u, f] =
      .ok { mode := FetchAnswerFrom.Http
            http := { url := some u, cert_fingerprint := some f } }
      ∧ settings_from_cli_args [a0, "ISO"] =
        .ok { mode := FetchAnswerFrom.Iso
              http := { url := none, cert_fingerprint := none } }
      ∧ settings_from_cli_args [a0, "iso", u] =
        .error
          "only 'http' fetch-from mode supports additional url and cert-fingerprint mode"
      ∧ settings_from_cli_args [a0, "iso", u, f, "extra"] =
        .ok { mode := FetchAnswerFrom.Iso
              http := { url := some u, cert_fingerprint := some f } } :=
  ⟨rfl, rfl, rfl, rfl⟩

/-- C7: `fetch_answer` invokes exactly the one fetcher matching the
configured mode, exactly once (the invocation log is exactly
`[mode]`); on fetcher success it returns that raw document unchanged;
on fetcher failure it returns the single generic terminal error. -/
theorem fetch_answer_spec (s : AutoInstSettings)
    (iso part : Except String String)
    (httpGet : HttpOptions → Except String String) :
    (fetch_answer s iso part httpGet).2 = [s.mode]
      ∧ (∀ a, selectedFetch s iso part httpGet = .ok a →
        (fetch_answer s iso part httpGet).1 = .ok a)
      ∧ (∀ e, selectedFetch s iso part httpGet = .error e →
        (fetch_answer s iso part httpGet).1 =
          .error "Could not find any answer file!") := by
  rcases s with ⟨mode, http⟩
  cases mode
  · cases iso <;> simp [fetch_answer, selectedFetch]
  · cases part <;> simp [fetch_answer, selectedFetch]
  · cases h : httpGet http <;> simp [fetch_answer, selectedFetch, h]

lemma hexDigitNat?_lower (n : Nat) :
    hexDigitNat? n = hexDigitNat? (lowerHexNat n) := by
  unfold hexDigitNat? lowerHexNat
  split_ifs <;> first | rfl | omega

lemma hexDecodePairs_lower :
    ∀ l1 l2 : List Nat, l1.map lowerHexNat = l2.map lowerHexNat →
      hexDecodePairs l1 = hexDecodePairs l2
  | [], l2, h => by
    cases l2 with
    | nil => rfl
    | cons b bs => simp at h
  | [a], l2, h => by
    rcases l2 with _ | ⟨b, _ | ⟨b2, bs⟩⟩ <;> simp_all [hexDecodePairs]
  | c1 :: c2 :: rest, l2, h => by
    rcases l2 with _ | ⟨d1, _ | ⟨d2, rest2⟩⟩ <;> simp_all
    obtain ⟨h1, h2, hrest⟩ := h
    have e1 : hexDigitNat? c1 = hexDigitNat? d1 := by
      rw [hexDigitNat?_lower c1, h1, ← hexDigitNat?_lower d1]
    have e2 : hexDigitNat? c2 = hexDigitNat? d2 := by
      rw [hexDigitNat?_lower c2, h2, ← hexDigitNat?_lower d2]
    have ih := hexDecodePairs_lower rest rest2 hrest
    simp only [hexDecodePairs, e1, e2, ih]

/-- C6: fingerprint strings denoting the same bytes — equal after
stripping colons and lowercasing hex letters — decode to the same pin;
`verify_server_cert` succeeds exactly when the SHA-256 digest of the
leaf certificate bytes equals the pin byte-for-byte; and any mismatch
is the terminal fingerprint error. -/
theorem fingerprint_pinning_spec :
    (∀ s t : String,
      (sanitizeCodes s).map lowerHexNat = (sanitizeCodes t).map lowerHexNat →
      VerifyCertFingerprint.new s = VerifyCertFingerprint.new t)
      ∧ (∀ (v : VerifyCertFingerprint) (cert : List Nat),
        verify_server_cert v cert = .ok () ↔
          sha256 cert = v.cert_fingerprint)
      ∧ (∀ (v : VerifyCertFingerprint) (cert : List Nat),
        verify_server_cert v cert ≠ .ok () →
        verify_server_cert v cert = .error "Fingerprint did not match!") := by
  refine ⟨?_, ?_, ?_⟩
  · intro s t h
    unfold VerifyCertFingerprint.new
    rw [hexDecodePairs_lower _ _ h]
  · intro v cert
    by_cases h : sha256 cert = v.cert_fingerprint <;>
      simp [verify_server_cert, h]
  · intro v cert hne
    by_cases h : sha256 cert = v.cert_fingerprint <;>
      simp_all [verify_server_cert, h]

/-- Witness for `fetch_answer_spec` at a concrete configuration: in ISO
mode with a successful ISO read, the raw document is returned
unchanged. -/
theorem fetch_answer_spec_witness :
    (fetch_answer
        { mode := FetchAnswerFrom.Iso
          http := { url := none, cert_fingerprint := none } }
        (.ok "raw answer") (.error "unused") (fun _ => .error "unused")).1 =
      .ok "raw answer" :=
  (fetch_answer_spec _ _ _ _).2.1 "raw answer" rfl

/-- Witness for `fingerprint_pinning_spec` at concrete strings: a
colon-separated uppercase fingerprint and its plain lowercase form
decode to the same pin. -/
theorem fingerprint_pinning_spec_witness :
    VerifyCertFingerprint.new "AA:0B:CC" = VerifyCertFingerprint.new "aa0bcc" :=
  fingerprint_pinning_spec.1 "AA:0B:CC" "aa0bcc" (by decide)
